import Mathlib

/-!
Shallow embedding of the leader-election / frame-distribution core of the
`m5lights_v1` firmware (files `networking.cpp`, `ui.cpp`, `config.h`,
`playalights_claude_v51.ino.cpp`), together with theorems settling the
frozen claims about it.

Machine integers: all protocol variables are C `uint32_t`; they are modelled
as `Nat` with an explicit `% 2^32` wherever the C arithmetic can wrap
(subtraction of timestamps, the election-delay multiplication, additions that
can overflow).  External collaborators (FastLED rendering, the LCD, audio,
the radio send path) have no effect on the protocol state modelled here and
are omitted, exactly as the spec scopes them out.
-/

namespace M5Lights

/-- Operating mode, from `config.h` (`enum Mode { AUTO = 0, GO, QUIET }`). -/
inductive Mode where
  | AUTO
  | GO
  | QUIET
deriving DecidableEq, Repr

/-- Protocol role, from `config.h` (`enum FsmState { FOLLOWER = 1, ELECT, LEADER }`). -/
inductive FsmState where
  | FOLLOWER
  | ELECT
  | LEADER
deriving DecidableEq, Repr

open Mode FsmState

/-- Modulus of C `uint32_t` arithmetic. -/
def u32 : Nat := 4294967296

/-- Wrapping `uint32_t` subtraction `a - b`, as in `now - lastRecvMillis`. -/
def sub32 (a b : Nat) : Nat := (a % u32 + u32 - b % u32) % u32

/-- Message-type discriminator for a pixel-chunk datagram (`config.h`). -/
def MSGTYPE_RAW : Nat := 0

/-- Message-type discriminator for a heartbeat/token datagram (`config.h`). -/
def MSGTYPE_TOKEN : Nat := 1

/-- Pixel count of the strip, from `config.h` (`NUM_LEDS`). -/
def NUM_LEDS : Nat := 300

/-- Follower liveness timeout in ms, from `config.h`. -/
def LEADER_TIMEOUT : Nat := 1500

/-- Base component of the election delay in ms, from `config.h`. -/
def ELECTION_BASE_DELAY : Nat := 200

/-- Width of the random jitter added to the election delay, from `config.h`. -/
def ELECTION_JITTER : Nat := 50

/-- Election-window duration in ms, from `config.h`. -/
def ELECTION_TIMEOUT : Nat := ELECTION_BASE_DELAY + ELECTION_JITTER + 50

/-- Leader heartbeat period in ms, from `config.h`. -/
def LEADER_HEARTBEAT_INTERVAL : Nat := 100

/-- Number of pixel chunks per frame, the expression `(NUM_LEDS + 74) / 75`
used in `handleNetworking` and `sendRaw`; equals 4. -/
def chunkCount : Nat := (NUM_LEDS + 74) / 75

/-- Full completion mask, the expression `(1u << ((NUM_LEDS + 74) / 75)) - 1u`
from `handleNetworking`; equals 15. -/
def fullMask : Nat := (1 <<< chunkCount) - 1

/-- Protocol state of a single node: the global variables of
`playalights_claude_v51.ino.cpp` that the networking core reads or writes.
`leds` is the pixel buffer viewed as a byte store (3 bytes per pixel, the
layout `memcpy` writes into). -/
structure NodeState where
  currentMode : Mode
  fsmState : FsmState
  myToken : Nat
  highestTokenSeen : Nat
  chunkMask : Nat
  lastRecvMillis : Nat
  missedFrameCount : Nat
  electionStart : Nat
  electionEnd : Nat
  myDelay : Nat
  electionBroadcasted : Bool
  lastHeartbeat : Nat
  masterSeq : Nat
  leds : Nat → Nat

/-- Initial protocol state after `setup()`: mode `AUTO`, role `FOLLOWER`,
all counters and masks zero, `lastRecvMillis` set to the boot time, the
token derived from the MAC address (a 24-bit value). -/
def bootState (token bootMillis : Nat) : NodeState where
  currentMode := AUTO
  fsmState := FOLLOWER
  myToken := token
  highestTokenSeen := 0
  chunkMask := 0
  lastRecvMillis := bootMillis
  missedFrameCount := 0
  electionStart := 0
  electionEnd := 0
  myDelay := 0
  electionBroadcasted := false
  lastHeartbeat := bootMillis
  masterSeq := 0
  leds := fun _ => 0

/-- Little-endian 32-bit read at offset `off` of a byte list, the effect of
`memcpy(&incomingToken, data + off, 4)` on the ESP32. -/
def readU32 (l : List Nat) (off : Nat) : Nat :=
  l.getD off 0 + l.getD (off + 1) 0 * 256 + l.getD (off + 2) 0 * 65536 +
    l.getD (off + 3) 0 * 16777216

/-- Byte-range overwrite: `writeBytes buf off p` is `buf` with bytes
`off .. off + p.length - 1` replaced by `p`, the effect of
`memcpy(bufBase + off, src, p.length)`. -/
def writeBytes (buf : Nat → Nat) (off : Nat) (p : List Nat) : Nat → Nat :=
  fun i => if off ≤ i ∧ i < off + p.length then p.getD (i - off) 0 else buf i

/-- The deterministic component of the election delay as the code computes
it: `((0xFFFFFFFF - myToken) * ELECTION_BASE_DELAY) / 0xFFFFFFFF` with the
subtraction and multiplication performed in `uint32_t` arithmetic
(`networking.cpp`, `handleNetworking`, FOLLOWER branch). -/
def myDelayDet (tok : Nat) : Nat :=
  (((4294967295 - tok % u32) % u32) * ELECTION_BASE_DELAY % u32) / 4294967295

/-- Modelled from the spec: the same delay formula
`round_base_delay * (max_token − my_token) / max_token` read as exact
(unbounded) integer arithmetic, as claim C5 words it.  Used only to compare
the spec reading against the `uint32_t` computation `myDelayDet`. -/
def specDelayDet (tok : Nat) : Nat :=
  ELECTION_BASE_DELAY * (4294967295 - tok) / 4294967295

/-- The ESP-NOW receive callback `onRecv` from `networking.cpp`, lines
187-233, as a state transformer.  `now` is the value of `millis()` at entry,
`data` the datagram bytes.  The `Serial.printf` calls are pure logging and
are omitted. -/
def onRecv (s : NodeState) (now : Nat) (data : List Nat) : NodeState :=
  if 5 ≤ data.length ∧ data.getD 0 0 = MSGTYPE_TOKEN then
    let incomingToken := readU32 data 1
    let s1 := if incomingToken > s.highestTokenSeen then
        { s with highestTokenSeen := incomingToken } else s
    if s1.fsmState = FOLLOWER ∧ s1.currentMode = AUTO then
      { s1 with lastRecvMillis := now % u32, missedFrameCount := 0 }
    else s1
  else if data.length < 10 ∨ data.getD 0 0 ≠ MSGTYPE_RAW then s
  else
    let incomingToken := readU32 data 5
    if s.fsmState = LEADER ∧ incomingToken > s.myToken then
      { s with fsmState := FOLLOWER, lastRecvMillis := now % u32,
               chunkMask := 0, missedFrameCount := 0 }
    else if s.fsmState = FOLLOWER ∧ s.currentMode = AUTO then
      let idx := data.getD 9 0
      let base := idx * 75
      -- C computes `int cnt = min(75, NUM_LEDS - base)` in signed arithmetic
      -- and passes `cnt * 3` to memcpy; for base > NUM_LEDS the length is
      -- negative, which is undefined behaviour in C.  The model copies
      -- nothing in that case (Int.toNat clamps to 0).
      let cnt : Int := min 75 ((NUM_LEDS : Int) - (base : Int))
      let payload := (data.drop 10).take (cnt * 3).toNat
      { s with leds := writeBytes s.leds (base * 3) payload,
               chunkMask := (s.chunkMask ||| (1 <<< idx) % u32) % u32,
               lastRecvMillis := now % u32, missedFrameCount := 0 }
    else s

/-- The per-tick protocol driver `handleNetworking` from `networking.cpp`,
lines 97-185, as a state transformer.  `now` is `millis()` at entry and
`jitter` the value returned by `random(0, ELECTION_JITTER)` in case the tick
starts an election round.  The rendering calls (`detectAudioFrame`,
`effectMusic`, `effectWildBG`, `FastLED.show`) touch only collaborator state
outside this core, and `sendToken` / `sendRaw` only emit datagrams
(`sendRaw` also advances `masterSeq` once per chunk). -/
def handleNetworking (s : NodeState) (now : Nat) (jitter : Nat) : NodeState :=
  if s.currentMode ≠ AUTO then s
  else match s.fsmState with
  | FOLLOWER =>
    let s1 := if s.chunkMask = fullMask then { s with chunkMask := 0 } else s
    let timeSinceLastMsg := sub32 now s1.lastRecvMillis
    if timeSinceLastMsg > LEADER_TIMEOUT then
      let mfc := (s1.missedFrameCount + 1) % u32
      if mfc ≥ 3 then
        { s1 with fsmState := ELECT,
                  electionStart := now % u32,
                  electionEnd := (now + ELECTION_TIMEOUT) % u32,
                  highestTokenSeen := s1.myToken,
                  myDelay := (myDelayDet s1.myToken + jitter) % u32,
                  electionBroadcasted := false,
                  missedFrameCount := 0 }
      else { s1 with missedFrameCount := mfc }
    else if timeSinceLastMsg < LEADER_TIMEOUT / 2 then
      { s1 with missedFrameCount := 0 }
    else s1
  | ELECT =>
    let s1 := if s.electionBroadcasted = false ∧
                 now % u32 ≥ (s.electionStart + s.myDelay) % u32 then
        { s with electionBroadcasted := true } else s
    if now % u32 ≥ s1.electionEnd then
      if s1.highestTokenSeen > s1.myToken then
        { s1 with fsmState := FOLLOWER, lastRecvMillis := now % u32 }
      else { s1 with fsmState := LEADER }
    else s1
  | LEADER =>
    let s1 := if sub32 now s.lastHeartbeat ≥ LEADER_HEARTBEAT_INTERVAL then
        { s with lastHeartbeat := now % u32 } else s
    if s1.highestTokenSeen > s1.myToken then
      { s1 with fsmState := FOLLOWER, lastRecvMillis := now % u32,
                chunkMask := 0, missedFrameCount := 0 }
    else
      { s1 with masterSeq := (s1.masterSeq + chunkCount) % u32 }

/-- A control-loop tick under the drain-at-tick-start scheduling model of
spec section 5: all datagrams pending in `inbox` are handed to `onRecv`,
then `handleNetworking` runs, all at time `now`. -/
def tickWithInbox (s : NodeState) (now : Nat) (inbox : List (List Nat))
    (jitter : Nat) : NodeState :=
  handleNetworking (inbox.foldl (fun st d => onRecv st now d) s) now jitter

/-- Effect of one click of button A on the protocol state, from `ui.cpp`
`handleButtons` lines 53-66: the mode cycles AUTO → GO → QUIET → AUTO, and
only the QUIET → AUTO edge touches protocol state (`fsmState := FOLLOWER`,
`lastRecvMillis := now`).  Brightness and the freeze flag are UI-collaborator
state outside this core. -/
def btnAClick (s : NodeState) (now : Nat) : NodeState :=
  match s.currentMode with
  | AUTO => { s with currentMode := GO }
  | GO => { s with currentMode := QUIET }
  | QUIET => { s with currentMode := AUTO, fsmState := FOLLOWER,
                      lastRecvMillis := now % u32 }

/-- The mask update `chunkMask |= (1 << idx)` performed by `onRecv` for an
accepted pixel chunk. -/
def applyMask (m idx : Nat) : Nat := (m ||| (1 <<< idx) % u32) % u32

/-- Folding `applyMask` over a list of chunk indices, the cumulative effect
of a sequence of inbound pixel chunks on the completion mask. -/
def applyAll (m : Nat) (l : List Nat) : Nat := l.foldl applyMask m

/-- The frame-complete check `chunkMask == (1u << chunkCount) - 1u` from
`handleNetworking`. -/
def isComplete (m : Nat) : Bool := m == fullMask

theorem writeBytes_nil (buf : Nat → Nat) (off : Nat) :
    writeBytes buf off [] = buf := by
  funext i
  simp only [writeBytes, List.length_nil, Nat.add_zero]
  split
  · omega
  · rfl

/-- C5: the claim reads the delay formula in exact integer arithmetic; the
code computes it in `uint32_t`, where `(0xFFFFFFFF - myToken) * 200`
overflows, so the deterministic delay component is 0 for every 24-bit token
while the exact-arithmetic reading is strictly larger (about 199-200 ms). -/
theorem C5_delay_formula_overflow (tok : Nat) (h : tok < 16777216) :
    myDelayDet tok = 0 ∧ myDelayDet tok < specDelayDet tok := by
  unfold myDelayDet specDelayDet ELECTION_BASE_DELAY u32
  omega

theorem C5_delay_formula_overflow_witness :
    1 < 16777216 ∧ (myDelayDet 1 = 0 ∧ myDelayDet 1 < specDelayDet 1) :=
  ⟨by decide, C5_delay_formula_overflow 1 (by decide)⟩

/-- C4 counterexample: a reachable four-step trace on which
`highestTokenSeen` decreases.  A freshly booted node with token 1 hears a
heartbeat carrying token 5 (ratchet to 5), then misses three consecutive
liveness checks; the third check starts an election round and re-seeds
`highestTokenSeen := myToken = 1 < 5`. -/
theorem C4_counterexample :
    (handleNetworking (handleNetworking (handleNetworking
        (onRecv (bootState 1 0) 10 [1, 5, 0, 0, 0]) 1600 0) 1700 0) 1800 0).highestTokenSeen
      < (handleNetworking (handleNetworking
        (onRecv (bootState 1 0) 10 [1, 5, 0, 0, 0]) 1600 0) 1700 0).highestTokenSeen := by
  decide

/-- C4 amended: `highestTokenSeen` never decreases across an `onRecv`
delivery, and a `handleNetworking` tick either leaves it no smaller or is a
Follower-to-Electing round start that re-seeds it to exactly `myToken`
(which may be a decrease). -/
theorem C4_ratchet_or_reseed :
    (∀ (s : NodeState) (now : Nat) (data : List Nat),
      s.highestTokenSeen ≤ (onRecv s now data).highestTokenSeen) ∧
    (∀ (s : NodeState) (now jitter : Nat),
      s.highestTokenSeen ≤ (handleNetworking s now jitter).highestTokenSeen ∨
      (handleNetworking s now jitter).highestTokenSeen = s.myToken) := by
  constructor
  · intro s now data
    simp only [onRecv]
    split_ifs <;> simp <;> omega
  · intro s now jitter
    simp only [handleNetworking]
    split
    · left; exact Nat.le_refl _
    · split <;> split_ifs <;> simp

/-- C3 (code-bug demonstration): a pixel-chunk datagram with chunk index
4 = chunkCount, delivered to a freshly booted AUTO-mode Follower, leaves the
pixel buffer untouched (the copy length `min(75, 300 - 4*75) * 3` is 0) but
sets bit 4 of `chunkMask`: the `chunkMask |= (1 << idx)` in `onRecv` has no
bounds check, so the mask acquires a bit at a position ≥ chunkCount,
contradicting the claimed rejection; for index ≥ 5 the C copy length is
negative, which is undefined behaviour. -/
theorem C3_out_of_range_chunk_sets_mask :
    (onRecv (bootState 1 0) 7 [0, 0, 0, 0, 0, 0, 0, 0, 0, 4]).chunkMask = 16 ∧
    Nat.testBit 16 4 = true ∧ chunkCount = 4 ∧
    (∀ i, (onRecv (bootState 1 0) 7 [0, 0, 0, 0, 0, 0, 0, 0, 0, 4]).leds i =
      (bootState 1 0).leds i) := by
  refine ⟨by decide, by decide, by decide, ?_⟩
  intro i
  show writeBytes (fun _ => 0) 900 [] i = 0
  rw [writeBytes_nil]

/-- C1: a tick in the Electing state at or past `electionEnd` concludes the
round — with no observed token strictly above `myToken` (so
`highestTokenSeen`, seeded with `myToken` at round start, still does not
exceed it) the node becomes Leader; with a strictly greater observed token
it becomes Follower and `lastRecvMillis` is reset to the tick time. -/
theorem C1_round_conclusion (s : NodeState) (now jitter : Nat)
    (hmode : s.currentMode = AUTO) (hrole : s.fsmState = ELECT)
    (hend : now % u32 ≥ s.electionEnd) :
    (s.highestTokenSeen ≤ s.myToken →
      (handleNetworking s now jitter).fsmState = LEADER) ∧
    (s.myToken < s.highestTokenSeen →
      (handleNetworking s now jitter).fsmState = FOLLOWER ∧
      (handleNetworking s now jitter).lastRecvMillis = now % u32) := by
  simp only [handleNetworking, hmode, hrole]
  split_ifs <;> simp_all

theorem C1_round_conclusion_witness :
    (handleNetworking { bootState 5 0 with fsmState := ELECT, highestTokenSeen := 5, electionEnd := 300 } 300 0).fsmState = LEADER ∧
    ((handleNetworking { bootState 5 0 with fsmState := ELECT, highestTokenSeen := 9, electionEnd := 300 } 300 0).fsmState = FOLLOWER ∧
      (handleNetworking { bootState 5 0 with fsmState := ELECT, highestTokenSeen := 9, electionEnd := 300 } 300 0).lastRecvMillis = 300 % u32) :=
  ⟨(C1_round_conclusion _ 300 0 rfl rfl (by decide)).1 (by decide),
   (C1_round_conclusion _ 300 0 rfl rfl (by decide)).2 (by decide)⟩

/-- C8 counterexample: with an election round in progress (role Electing,
a partially filled completion mask), one click of button A moves the mode
from AUTO to GO but abandons nothing — the role is still Electing and the
completion mask is untouched, refuting the claimed atomic reset. -/
theorem C8_counterexample :
    (btnAClick { bootState 1 0 with fsmState := ELECT, chunkMask := 3, electionEnd := 500 } 100).currentMode = GO ∧
    (btnAClick { bootState 1 0 with fsmState := ELECT, chunkMask := 3, electionEnd := 500 } 100).fsmState = ELECT ∧
    (btnAClick { bootState 1 0 with fsmState := ELECT, chunkMask := 3, electionEnd := 500 } 100).chunkMask = 3 := by
  decide

/-- C8 amended: changing the mode away from AUTO changes only `currentMode`;
role, completion mask, missed-interval counter and election-round variables
are all left as they were, and the protocol is merely suspended — a tick in
a non-AUTO mode is a no-op on the whole state. -/
theorem C8_mode_change_preserves_protocol_state :
    (∀ (s : NodeState) (now : Nat), s.currentMode = AUTO →
      btnAClick s now = { s with currentMode := GO }) ∧
    (∀ (s : NodeState) (now jitter : Nat), s.currentMode ≠ AUTO →
      handleNetworking s now jitter = s) := by
  constructor
  · intro s now h
    simp only [btnAClick, h]
  · intro s now jitter h
    simp only [handleNetworking, if_pos h]

theorem C8_mode_change_preserves_protocol_state_witness :
    btnAClick (bootState 1 0) 5 = { bootState 1 0 with currentMode := GO } ∧
    handleNetworking { bootState 1 0 with currentMode := GO } 9 0 =
      { bootState 1 0 with currentMode := GO } :=
  ⟨C8_mode_change_preserves_protocol_state.1 (bootState 1 0) 5 rfl,
   C8_mode_change_preserves_protocol_state.2 _ 9 0 (by decide)⟩

theorem sub32_mod_self (a : Nat) : sub32 a (a % u32) = 0 := by
  unfold sub32 u32
  omega

theorem follower_timeout_tick (s : NodeState) (now j : Nat)
    (hmode : s.currentMode = AUTO) (hrole : s.fsmState = FOLLOWER)
    (ht : sub32 now s.lastRecvMillis > LEADER_TIMEOUT)
    (hc : s.missedFrameCount < 2) :
    (handleNetworking s now j).fsmState = FOLLOWER ∧
    (handleNetworking s now j).missedFrameCount = s.missedFrameCount + 1 ∧
    (handleNetworking s now j).lastRecvMillis = s.lastRecvMillis ∧
    (handleNetworking s now j).currentMode = AUTO := by
  simp only [handleNetworking, hmode, hrole]
  split_ifs <;> simp_all [u32] <;> omega

theorem follower_timeout_elect (s : NodeState) (now j : Nat)
    (hmode : s.currentMode = AUTO) (hrole : s.fsmState = FOLLOWER)
    (ht : sub32 now s.lastRecvMillis > LEADER_TIMEOUT)
    (hc : s.missedFrameCount = 2) :
    (handleNetworking s now j).fsmState = ELECT := by
  simp only [handleNetworking, hmode, hrole]
  split_ifs <;> simp_all [u32]

/-- C6: from a Follower with a zeroed missed-interval counter, a liveness
check with `now - lastRecvMillis > LEADER_TIMEOUT` only increments the
counter (first check: counter 1, still Follower; second: counter 2, still
Follower); the transition to Electing fires exactly on the third consecutive
over-threshold check. -/
theorem C6_third_missed_check (s : NodeState) (t1 t2 t3 j1 j2 j3 : Nat)
    (hmode : s.currentMode = AUTO) (hrole : s.fsmState = FOLLOWER)
    (hc : s.missedFrameCount = 0)
    (h1 : sub32 t1 s.lastRecvMillis > LEADER_TIMEOUT)
    (h2 : sub32 t2 s.lastRecvMillis > LEADER_TIMEOUT)
    (h3 : sub32 t3 s.lastRecvMillis > LEADER_TIMEOUT) :
    ((handleNetworking s t1 j1).fsmState = FOLLOWER ∧
      (handleNetworking s t1 j1).missedFrameCount = 1) ∧
    ((handleNetworking (handleNetworking s t1 j1) t2 j2).fsmState = FOLLOWER ∧
      (handleNetworking (handleNetworking s t1 j1) t2 j2).missedFrameCount = 2) ∧
    (handleNetworking (handleNetworking (handleNetworking s t1 j1) t2 j2) t3 j3).fsmState
      = ELECT := by
  obtain ⟨f1, m1, l1, c1⟩ := follower_timeout_tick s t1 j1 hmode hrole h1 (by omega)
  obtain ⟨f2, m2, l2, c2⟩ := follower_timeout_tick _ t2 j2 c1 f1 (by rw [l1]; exact h2) (by omega)
  refine ⟨⟨f1, by omega⟩, ⟨f2, by omega⟩, ?_⟩
  exact follower_timeout_elect _ t3 j3 c2 f2 (by rw [l2, l1]; exact h3) (by omega)

theorem C6_third_missed_check_witness :
    ((handleNetworking (bootState 1 0) 1600 0).fsmState = FOLLOWER ∧
      (handleNetworking (bootState 1 0) 1600 0).missedFrameCount = 1) ∧
    ((handleNetworking (handleNetworking (bootState 1 0) 1600 0) 1700 0).fsmState = FOLLOWER ∧
      (handleNetworking (handleNetworking (bootState 1 0) 1600 0) 1700 0).missedFrameCount = 2) ∧
    (handleNetworking (handleNetworking (handleNetworking (bootState 1 0) 1600 0) 1700 0) 1800 0).fsmState
      = ELECT :=
  C6_third_missed_check (bootState 1 0) 1600 1700 1800 0 0 0 rfl rfl rfl
    (by decide) (by decide) (by decide)

theorem leader_stepdown_tick (s : NodeState) (now j : Nat)
    (hmode : s.currentMode = AUTO) (hrole : s.fsmState = LEADER)
    (hh : s.highestTokenSeen > s.myToken) :
    (handleNetworking s now j).fsmState = FOLLOWER ∧
    (handleNetworking s now j).chunkMask = 0 ∧
    (handleNetworking s now j).missedFrameCount = 0 ∧
    (handleNetworking s now j).lastRecvMillis = now % u32 := by
  simp only [handleNetworking, hmode, hrole]
  split_ifs <;> simp_all

theorem follower_fresh_tick (s : NodeState) (now j : Nat)
    (hmode : s.currentMode = AUTO) (hrole : s.fsmState = FOLLOWER)
    (hl : s.lastRecvMillis = now % u32) (hm : s.chunkMask = 0) :
    (handleNetworking s now j).fsmState = FOLLOWER ∧
    (handleNetworking s now j).chunkMask = 0 ∧
    (handleNetworking s now j).missedFrameCount = 0 ∧
    (handleNetworking s now j).lastRecvMillis = now % u32 := by
  have h0 : sub32 now (now % u32) = 0 := sub32_mod_self now
  simp only [handleNetworking, hmode, hrole]
  split_ifs <;> simp_all [fullMask, chunkCount, NUM_LEDS, LEADER_TIMEOUT]

/-- C2: a Leader in the participating mode that observes a token strictly
greater than its own — in the token field of a heartbeat datagram or in the
sender-token field of a pixel-chunk datagram delivered in the tick's inbox —
ends that same tick as a Follower with `chunkMask = 0`,
`missedFrameCount = 0` and `lastRecvMillis` reset to the tick time. -/
theorem C2_leader_steps_down (s : NodeState) (now jitter : Nat) (d : List Nat)
    (hmode : s.currentMode = AUTO) (hrole : s.fsmState = LEADER)
    (hd : (5 ≤ d.length ∧ d.getD 0 0 = MSGTYPE_TOKEN ∧ readU32 d 1 > s.myToken) ∨
          (10 ≤ d.length ∧ d.getD 0 0 = MSGTYPE_RAW ∧ readU32 d 5 > s.myToken)) :
    (tickWithInbox s now [d] jitter).fsmState = FOLLOWER ∧
    (tickWithInbox s now [d] jitter).chunkMask = 0 ∧
    (tickWithInbox s now [d] jitter).missedFrameCount = 0 ∧
    (tickWithInbox s now [d] jitter).lastRecvMillis = now % u32 := by
  simp only [tickWithInbox, List.foldl]
  rcases hd with ⟨h1, h2, h3⟩ | ⟨h1, h2, h3⟩
  · have hrec : onRecv s now d =
        if s.highestTokenSeen < readU32 d 1
        then { s with highestTokenSeen := readU32 d 1 } else s := by
      simp only [onRecv]
      rw [if_pos ⟨h1, h2⟩]
      by_cases hrt : s.highestTokenSeen < readU32 d 1
      · simp [hrt, hrole]
      · simp [hrt, hrole]
    rw [hrec]
    by_cases hrt : s.highestTokenSeen < readU32 d 1
    · rw [if_pos hrt]
      exact leader_stepdown_tick _ now jitter hmode hrole (by simp; omega)
    · rw [if_neg hrt]
      exact leader_stepdown_tick _ now jitter hmode hrole (by omega)
  · have hrec : onRecv s now d =
        { s with fsmState := FOLLOWER, lastRecvMillis := now % u32,
                 chunkMask := 0, missedFrameCount := 0 } := by
      simp only [onRecv]
      rw [if_neg (by rintro ⟨-, hq⟩; rw [h2] at hq; exact absurd hq (by decide)),
          if_neg (by push_neg; exact ⟨by omega, h2⟩), if_pos ⟨hrole, h3⟩]
    rw [hrec]
    exact follower_fresh_tick _ now jitter hmode rfl rfl rfl

theorem C2_leader_steps_down_witness :
    ((tickWithInbox { bootState 1 0 with fsmState := LEADER, chunkMask := 3 } 50 [[1, 9, 0, 0, 0]] 0).fsmState = FOLLOWER ∧
      (tickWithInbox { bootState 1 0 with fsmState := LEADER, chunkMask := 3 } 50 [[1, 9, 0, 0, 0]] 0).chunkMask = 0 ∧
      (tickWithInbox { bootState 1 0 with fsmState := LEADER, chunkMask := 3 } 50 [[1, 9, 0, 0, 0]] 0).missedFrameCount = 0 ∧
      (tickWithInbox { bootState 1 0 with fsmState := LEADER, chunkMask := 3 } 50 [[1, 9, 0, 0, 0]] 0).lastRecvMillis = 50 % u32) ∧
    ((tickWithInbox { bootState 1 0 with fsmState := LEADER, chunkMask := 3 } 60 [[0, 0, 0, 0, 0, 9, 0, 0, 0, 2]] 0).fsmState = FOLLOWER ∧
      (tickWithInbox { bootState 1 0 with fsmState := LEADER, chunkMask := 3 } 60 [[0, 0, 0, 0, 0, 9, 0, 0, 0, 2]] 0).chunkMask = 0 ∧
      (tickWithInbox { bootState 1 0 with fsmState := LEADER, chunkMask := 3 } 60 [[0, 0, 0, 0, 0, 9, 0, 0, 0, 2]] 0).missedFrameCount = 0 ∧
      (tickWithInbox { bootState 1 0 with fsmState := LEADER, chunkMask := 3 } 60 [[0, 0, 0, 0, 0, 9, 0, 0, 0, 2]] 0).lastRecvMillis = 60 % u32) :=
  ⟨C2_leader_steps_down _ 50 0 [1, 9, 0, 0, 0] rfl rfl
      (Or.inl ⟨by decide, by decide, by decide⟩),
   C2_leader_steps_down _ 60 0 [0, 0, 0, 0, 0, 9, 0, 0, 0, 2] rfl rfl
      (Or.inr ⟨by decide, by decide, by decide⟩)⟩

theorem onRecv_nonToken_highest (s : NodeState) (now : Nat) (data : List Nat)
    (hd : data.getD 0 0 = MSGTYPE_RAW) :
    (onRecv s now data).highestTokenSeen = s.highestTokenSeen := by
  simp only [onRecv]
  split_ifs <;> simp_all [MSGTYPE_RAW, MSGTYPE_TOKEN]

theorem onRecv_elect_noop (s : NodeState) (now : Nat) (d : List Nat)
    (hrole : s.fsmState = ELECT) (hd : d.getD 0 0 = MSGTYPE_RAW) :
    onRecv s now d = s := by
  simp only [onRecv]
  split_ifs <;> simp_all [MSGTYPE_RAW, MSGTYPE_TOKEN]

theorem foldl_onRecv_elect_noop (now : Nat) (ds : List (List Nat)) (s : NodeState)
    (hrole : s.fsmState = ELECT) (hds : ∀ d ∈ ds, d.getD 0 0 = MSGTYPE_RAW) :
    ds.foldl (fun st d => onRecv st now d) s = s := by
  induction ds with
  | nil => rfl
  | cons d t ih =>
    simp only [List.foldl_cons]
    rw [onRecv_elect_noop s now d hrole (hds d (by simp))]
    exact ih (fun x hx => hds x (by simp [hx]))

/-- C9: a pixel-chunk datagram never changes `highestTokenSeen` in any
state — only heartbeat/token datagrams ratchet it — and consequently a node
in the Electing state whose whole inbox consists of pixel chunks (a
higher-token leader heard only through chunk traffic) still concludes its
round as Leader. -/
theorem C9_chunks_never_ratchet :
    (∀ (s : NodeState) (now : Nat) (data : List Nat),
      data.getD 0 0 = MSGTYPE_RAW →
      (onRecv s now data).highestTokenSeen = s.highestTokenSeen) ∧
    (∀ (s : NodeState) (ds : List (List Nat)) (now jitter : Nat),
      s.fsmState = ELECT → s.currentMode = AUTO →
      s.highestTokenSeen ≤ s.myToken →
      (∀ d ∈ ds, d.getD 0 0 = MSGTYPE_RAW) →
      now % u32 ≥ s.electionEnd →
      (tickWithInbox s now ds jitter).fsmState = LEADER) := by
  constructor
  · exact onRecv_nonToken_highest
  · intro s ds now jitter hrole hmode hle hds hend
    rw [tickWithInbox, foldl_onRecv_elect_noop now ds s hrole hds]
    simp only [handleNetworking, hmode, hrole]
    split_ifs <;> simp_all <;> omega

theorem C9_chunks_never_ratchet_witness :
    (onRecv (bootState 7 0) 3 [0, 0, 0, 0, 0, 99, 0, 0, 0, 1]).highestTokenSeen
      = (bootState 7 0).highestTokenSeen ∧
    (tickWithInbox { bootState 7 0 with fsmState := ELECT, highestTokenSeen := 7, electionEnd := 300 }
        300 [[0, 0, 0, 0, 0, 99, 0, 0, 0, 1]] 0).fsmState = LEADER :=
  ⟨C9_chunks_never_ratchet.1 (bootState 7 0) 3 _ (by decide),
   C9_chunks_never_ratchet.2 _ [[0, 0, 0, 0, 0, 99, 0, 0, 0, 1]] 300 0 rfl rfl
      (by decide) (by decide) (by decide)⟩

/-- C10 counterexample: the receive callback mutates shared protocol state
directly, in the delivery context — a heartbeat changes `highestTokenSeen`,
a pixel chunk changes `chunkMask`, and a conflicting chunk changes the role
of a Leader, all inside `onRecv` with no mailbox in between. -/
theorem C10_counterexample :
    (onRecv (bootState 1 0) 5 [1, 9, 0, 0, 0]).highestTokenSeen ≠
      (bootState 1 0).highestTokenSeen ∧
    (onRecv (bootState 1 0) 5 [0, 0, 0, 0, 0, 9, 0, 0, 0, 2]).chunkMask ≠
      (bootState 1 0).chunkMask ∧
    (onRecv { bootState 1 0 with fsmState := LEADER } 5 [0, 0, 0, 0, 0, 9, 0, 0, 0, 2]).fsmState ≠
      ({ bootState 1 0 with fsmState := LEADER } : NodeState).fsmState := by
  refine ⟨by decide, by decide, by decide⟩

/-- C10 amended: inbound datagrams are processed synchronously inside the
receive callback, which itself writes the shared protocol state — a
heartbeat with a fresh maximal token updates `highestTokenSeen` immediately,
and an accepted pixel chunk updates `chunkMask` and `lastRecvMillis`
immediately.  There is no single-producer/single-consumer mailbox between
the delivery context and the control loop. -/
theorem C10_receive_context_mutates :
    (∀ (s : NodeState) (now : Nat) (d : List Nat),
      5 ≤ d.length → d.getD 0 0 = MSGTYPE_TOKEN → readU32 d 1 > s.highestTokenSeen →
      (onRecv s now d).highestTokenSeen = readU32 d 1) ∧
    (∀ (s : NodeState) (now : Nat) (d : List Nat),
      10 ≤ d.length → d.getD 0 0 = MSGTYPE_RAW →
      s.fsmState = FOLLOWER → s.currentMode = AUTO →
      (onRecv s now d).chunkMask = applyMask s.chunkMask (d.getD 9 0) ∧
      (onRecv s now d).lastRecvMillis = now % u32) := by
  constructor
  · intro s now d h1 h2 h3
    simp only [onRecv]
    rw [if_pos ⟨h1, h2⟩, if_pos h3]
    split_ifs <;> simp
  · intro s now d h1 h2 hrole hmode
    simp only [onRecv]
    rw [if_neg (by rintro ⟨-, hq⟩; rw [h2] at hq; exact absurd hq (by decide)),
        if_neg (by push_neg; exact ⟨by omega, h2⟩),
        if_neg (by rw [hrole]; rintro ⟨hq, -⟩; exact absurd hq (by decide)),
        if_pos ⟨hrole, hmode⟩]
    exact ⟨rfl, rfl⟩

theorem C10_receive_context_mutates_witness :
    (onRecv (bootState 1 0) 5 [1, 9, 0, 0, 0]).highestTokenSeen = readU32 [1, 9, 0, 0, 0] 1 ∧
    ((onRecv (bootState 1 0) 5 [0, 0, 0, 0, 0, 9, 0, 0, 0, 2]).chunkMask =
        applyMask (bootState 1 0).chunkMask 2 ∧
      (onRecv (bootState 1 0) 5 [0, 0, 0, 0, 0, 9, 0, 0, 0, 2]).lastRecvMillis = 5 % u32) :=
  ⟨C10_receive_context_mutates.1 (bootState 1 0) 5 _ (by decide) (by decide) (by decide),
   C10_receive_context_mutates.2 (bootState 1 0) 5 _ (by decide) (by decide) rfl rfl⟩

theorem u32_eq : u32 = 2 ^ 32 := by norm_num [u32]

theorem applyMask_eq (m idx : Nat) (hm : m < u32) (hidx : idx < 32) :
    applyMask m idx = m ||| 1 <<< idx ∧ m ||| 1 <<< idx < u32 := by
  have hpow : (1 <<< idx) < u32 := by
    rw [Nat.one_shiftLeft, u32_eq]
    exact Nat.pow_lt_pow_right (by omega) hidx
  have hor : m ||| 1 <<< idx < u32 := by
    rw [u32_eq] at hm hpow ⊢
    exact Nat.or_lt_two_pow hm hpow
  refine ⟨?_, hor⟩
  unfold applyMask
  rw [Nat.mod_eq_of_lt hpow, Nat.mod_eq_of_lt hor]

theorem applyAll_testBit (l : List Nat) :
    (∀ x ∈ l, x < 4) → ∀ m, m < u32 →
    applyAll m l < u32 ∧
      (∀ i, (applyAll m l).testBit i = true ↔ (m.testBit i = true ∨ i ∈ l)) := by
  induction l with
  | nil =>
    intro _ m hm
    exact ⟨hm, by simp [applyAll]⟩
  | cons a t ih =>
    intro hl m hm
    have ha : a < 4 := hl a (List.mem_cons_self a t)
    obtain ⟨hma, hor⟩ := applyMask_eq m a hm (by omega)
    have hstep : applyAll m (a :: t) = applyAll (applyMask m a) t := rfl
    have hrec := ih (fun x hx => hl x (List.mem_cons_of_mem a hx))
      (applyMask m a) (by rw [hma]; exact hor)
    refine ⟨hstep ▸ hrec.1, ?_⟩
    intro i
    rw [hstep, hrec.2 i, hma]
    simp only [Nat.testBit_or, Nat.one_shiftLeft, Nat.testBit_two_pow, List.mem_cons,
      Bool.or_eq_true, decide_eq_true_eq]
    constructor
    · rintro ((h | h) | h)
      · exact Or.inl h
      · exact Or.inr (Or.inl h.symm)
      · exact Or.inr (Or.inr h)
    · rintro (h | h | h)
      · exact Or.inl (Or.inl h)
      · exact Or.inl (Or.inr h.symm)
      · exact Or.inr h

theorem testBit_15 (i : Nat) : (15 : Nat).testBit i = decide (i < 4) := by
  have h : (15 : Nat) = 2 ^ 4 - 1 := by norm_num
  rw [h, Nat.testBit_two_pow_sub_one]

/-- C7: starting from an empty completion mask, applying the chunk indices
0..3 exactly once in any order makes the frame-complete check true, while
applying only a strict subset of them — in particular restarting after the
mask has been consumed back to zero — leaves it false. -/
theorem C7_mask_completion :
    (∀ l : List Nat, l.Perm [0, 1, 2, 3] → isComplete (applyAll 0 l) = true) ∧
    (∀ l : List Nat, (∀ x ∈ l, x ∈ [0, 1, 2, 3]) →
      (∃ i, i ∈ [0, 1, 2, 3] ∧ i ∉ l) → isComplete (applyAll 0 l) = false) := by
  constructor
  · intro l hperm
    have hl : ∀ x ∈ l, x < 4 := by
      intro x hx
      have hx4 := hperm.mem_iff.mp hx
      simp at hx4
      omega
    obtain ⟨hlt, htb⟩ := applyAll_testBit l hl 0 (by decide)
    have h15 : applyAll 0 l = 15 := by
      apply Nat.eq_of_testBit_eq
      intro i
      rw [testBit_15 i]
      rcases Nat.lt_or_ge i 4 with hi | hi
      · have hil : i ∈ l := hperm.mem_iff.mpr (by interval_cases i <;> simp)
        have := (htb i).mpr (Or.inr hil)
        simp [this, hi]
      · have hnotin : ¬ i ∈ l := fun hx => by have := hl i hx; omega
        have hfalse : (applyAll 0 l).testBit i = false := by
          cases hq : (applyAll 0 l).testBit i
          · rfl
          · rcases (htb i).mp hq with h | h
            · simp at h
            · exact absurd h hnotin
        rw [hfalse]
        simp
        omega
    show (applyAll 0 l == 15) = true
    rw [h15]
    rfl
  · rintro l hsub ⟨i, hi, hnotin⟩
    have hl : ∀ x ∈ l, x < 4 := by
      intro x hx
      have hx4 := hsub x hx
      simp at hx4
      omega
    obtain ⟨hlt, htb⟩ := applyAll_testBit l hl 0 (by decide)
    have hi4 : i < 4 := by simp at hi; omega
    have hbit : (applyAll 0 l).testBit i = false := by
      cases hq : (applyAll 0 l).testBit i
      · rfl
      · rcases (htb i).mp hq with h | h
        · simp at h
        · exact absurd h hnotin
    have hne : applyAll 0 l ≠ 15 := by
      intro he
      rw [he, testBit_15 i] at hbit
      simp [hi4] at hbit
    show (applyAll 0 l == 15) = false
    exact beq_eq_false_iff_ne.mpr hne

theorem C7_mask_completion_witness :
    isComplete (applyAll 0 [3, 1, 0, 2]) = true ∧
    isComplete (applyAll 0 [0, 1, 2]) = false :=
  ⟨C7_mask_completion.1 [3, 1, 0, 2] (by decide),
   C7_mask_completion.2 [0, 1, 2] (by decide) ⟨3, by decide, by decide⟩⟩

end M5Lights
